import Mathlib

/-!
Shallow embedding of the `gemini-k8s-agent` diagnostic CLI
(src/agent.py, src/main.py, src/node_collector.py) and proofs about it.

The agent connects to a Kubernetes cluster, discovers pods by label
selector, classifies each pod, and for unhealthy pods produces either a
rule-based or an LLM-derived diagnosis. External collaborators (the
Kubernetes API, the kubeconfig on disk, the generative-text service) are
modelled as explicit environments; a Python call that can raise is
modelled as returning `Except`.
-/

set_option maxRecDepth 8192

/-! ## Python string primitives

Executable models over `List Char` of the Python string operations the
agent uses: the `in` substring test, `str.replace`, `str.split`,
`str.strip` and `str.lower`. -/

/-- Whether `pat` stands at the start of `l`. -/
def leadsWith : List Char → List Char → Bool
  | [], _ => true
  | _ :: _, [] => false
  | a :: pat, b :: l => a == b && leadsWith pat l

/-- Whether `pat` occurs anywhere in `l`: Python's `pat in s`. -/
def containsL (pat : List Char) : List Char → Bool
  | [] => leadsWith pat []
  | c :: rest => leadsWith pat (c :: rest) || containsL pat rest

/-- Python's `s.replace(pat, rep)`: every occurrence of `pat`, scanned left to
right, becomes `rep`. The fuel counts scanning steps; each step consumes at
least one character, so `l.length` steps always suffice, and once the input is
exhausted the fuel is irrelevant. An empty `pat` leaves the string unchanged
(the agent only ever replaces non-empty markers). -/
def replaceFuel (pat rep : List Char) : Nat → List Char → List Char
  | _, [] => []
  | 0, l => l
  | fuel + 1, c :: rest =>
    if leadsWith pat (c :: rest) && !pat.isEmpty then
      rep ++ replaceFuel pat rep fuel (List.drop (pat.length - 1) rest)
    else
      c :: replaceFuel pat rep fuel rest

/-- Python's `s.split(sep)` for a non-empty separator, with fuel as in
`replaceFuel`. The result is never empty: with no occurrence of `sep` it is
the whole input as its single part. -/
def splitFuel (sep : List Char) : Nat → List Char → List (List Char)
  | _, [] => [[]]
  | 0, l => [l]
  | fuel + 1, c :: rest =>
    if leadsWith sep (c :: rest) && !sep.isEmpty then
      [] :: splitFuel sep fuel (List.drop (sep.length - 1) rest)
    else
      match splitFuel sep fuel rest with
      | [] => [[c]]
      | h :: t => (c :: h) :: t

/-- Python `sub in s`. -/
def pyContains (s sub : String) : Bool := containsL sub.data s.data

/-- Python `s.replace(pat, rep)`. -/
def pyReplace (s pat rep : String) : String :=
  String.mk (replaceFuel pat.data rep.data s.data.length s.data)

/-- Python `s.split(sep)`. -/
def pySplit (s sep : String) : List String :=
  List.map String.mk (splitFuel sep.data s.data.length s.data)

/-- Python `s.strip()`: whitespace removed from both ends. -/
def pyStrip (s : String) : String :=
  String.mk (List.reverse (List.dropWhile Char.isWhitespace
    (List.reverse (List.dropWhile Char.isWhitespace s.data))))

/-- Python `s.lower()` (character-wise case folding; the rule engine only
lowercases ASCII log text). -/
def pyLower (s : String) : String := String.mk (List.map Char.toLower s.data)

/-! ## Data model

Read-only snapshots of the Kubernetes objects the agent consumes, with the
fields the agent reads. -/

/-- A container status inside a pod's status, as `agent.py` reads it:
`waitingReason = some r` when `cs.state.waiting` is set with reason `r`
(a waiting state with no reason behaves like no waiting state everywhere the
agent looks), and `lastTerminated = true` when `cs.last_state.terminated`
is set. -/
structure ContainerStatus where
  name : String
  ready : Bool
  waitingReason : Option String
  lastTerminated : Bool
  deriving DecidableEq, Repr

/-- `pod.status`: the lifecycle phase string and the container-status list,
which the Kubernetes client may leave absent (`None`). -/
structure PodStatus where
  phase : String
  containerStatuses : Option (List ContainerStatus)
  deriving DecidableEq, Repr

/-- A discovered pod: metadata name/namespace (`ns`) and its status snapshot. -/
structure Pod where
  name : String
  ns : String
  status : PodStatus
  deriving DecidableEq, Repr

/-- One event returned by `list_namespaced_event`. -/
structure KubeEvent where
  lastTimestamp : String
  type : String
  reason : String
  message : String
  deriving DecidableEq, Repr

/-- The arguments of one `read_namespaced_pod_log` call. `tailLines` models
the `tail_lines` line-count parameter: `none` when the call does not pass
one, in which case the whole previous log is requested. -/
structure LogRequest where
  name : String
  ns : String
  container : String
  previous : Bool
  tailLines : Option Nat
  deriving DecidableEq, Repr

/-- What `_get_pod_diagnostics` returns: the formatted events text and the
formatted previous-container-logs text. -/
structure PodDiagnostics where
  events : String
  logs : String
  deriving DecidableEq, Repr

/-- The Kubernetes API as `_get_pod_diagnostics` calls it: each call either
succeeds or fails with a `client.ApiException`, whose text is the `String`
of the `error` case. `listEvents` takes the namespace and the involved
object name of the field selector. -/
structure PodApiEnv where
  listEvents : String → String → Except String (List KubeEvent)
  readLog : LogRequest → Except String String

/-- Where a diagnosis came from: the rule engine or the LLM fallback. -/
inductive Provenance where
  | ruleBased
  | generativeFallback
  deriving DecidableEq, Repr

/-- A diagnosis/recommendation pair with its provenance. -/
structure DiagnosisResult where
  diagnosis : String
  recommendation : String
  provenance : Provenance
  deriving DecidableEq, Repr

/-! ## Health classifier -/

/-- The waiting reasons `_is_pod_healthy` treats as critical:
`cs.state.waiting.reason in ['CrashLoopBackOff', 'ImagePullBackOff', 'Error']`. -/
def hasCriticalWaitReason (cs : ContainerStatus) : Bool :=
  match cs.waitingReason with
  | some r => r == "CrashLoopBackOff" || r == "ImagePullBackOff" || r == "Error"
  | none => false

/-- `KubernetesDiagnosticAgent._is_pod_healthy` (src/agent.py lines 99-118).
Python's `if not pod.status.container_statuses` is true both for `None` and
for an empty list; the waiting-reason loop returns on the first critical
container in list order, and only afterwards does the readiness of all
containers decide. -/
def isPodHealthy (pod : Pod) : Bool × String :=
  if pod.status.phase = "Failed" ∨ pod.status.phase = "Unknown" then
    (false, "Pod is in a non-running phase: " ++ pod.status.phase)
  else if pod.status.phase = "Pending" then
    (false, "Pod is stuck in Pending phase.")
  else
    match pod.status.containerStatuses with
    | none => (false, "Pod has no container statuses, may still be initializing.")
    | some [] => (false, "Pod has no container statuses, may still be initializing.")
    | some css =>
      match List.find? hasCriticalWaitReason css with
      | some cs =>
        (false, "Container '" ++ cs.name ++ "' is in a waiting state with reason: "
          ++ Option.getD cs.waitingReason "")
      | none =>
        if List.all css (fun cs => cs.ready) then (true, "Healthy")
        else (false, "Not all containers in the pod are ready.")

/-! ## Diagnostics collector -/

/-- `KubernetesDiagnosticAgent._get_pod_diagnostics` (src/agent.py lines
120-148). The events fetch is wrapped in `try/except ApiException`, so its
failure becomes an inline string. The log loop iterates
`pod.status.container_statuses` directly with no guard: when that field is
`None`, Python raises `TypeError`, modelled here as `Except.error`; a
per-container log-fetch failure becomes an inline string. -/
def getPodDiagnostics (env : PodApiEnv) (pod : Pod) : Except String PodDiagnostics :=
  let events :=
    match env.listEvents pod.ns pod.name with
    | Except.ok items =>
      let eventMessages := List.map
        (fun (e : KubeEvent) => "- " ++ e.lastTimestamp ++ " [" ++ e.type ++ "] "
          ++ e.reason ++ ": " ++ e.message) items
      if eventMessages.isEmpty then "No recent events found."
      else String.intercalate "\n" eventMessages
    | Except.error e => "Could not retrieve events: " ++ e
  match pod.status.containerStatuses with
  | none => Except.error "TypeError: 'NoneType' object is not iterable"
  | some css =>
    let logMessages := List.filterMap (fun (cs : ContainerStatus) =>
      if cs.lastTerminated then
        some (match env.readLog ⟨pod.name, pod.ns, cs.name, true, none⟩ with
          | Except.ok logs =>
            "--- Logs for container '" ++ cs.name ++ "' ---\n" ++ logs
          | Except.error _ =>
            "Could not retrieve logs for previous instance of container '"
              ++ cs.name ++ "'.")
      else none) css
    let logs :=
      if logMessages.isEmpty then "No logs from previously terminated containers found."
      else String.intercalate "\n" logMessages
    Except.ok ⟨events, logs⟩

/-- The `read_namespaced_pod_log` requests the loop of `_get_pod_diagnostics`
issues (src/agent.py lines 132-142): one per container whose last-termination
state is set, passing `previous=True` and no `tail_lines` argument. -/
def podLogRequests (pod : Pod) : List LogRequest :=
  match pod.status.containerStatuses with
  | none => []
  | some css => List.filterMap (fun (cs : ContainerStatus) =>
      if cs.lastTerminated then some ⟨pod.name, pod.ns, cs.name, true, none⟩
      else none) css

/-! ## Rule engine and LLM fallback -/

/-- `KubernetesDiagnosticAgent._get_rule_based_diagnosis` (src/agent.py lines
208-233), an ordered first-match chain of substring predicates; Python's
final `return None, None` (the no-match signal) is `none`. -/
def getRuleBasedDiagnosis (unhealthyReason podEvents containerLogs : String) :
    Option (String × String) :=
  if pyContains unhealthyReason "OOMKilled" then
    some ("The container was terminated because it exceeded its memory limit.",
      "Increase the memory limit for this pod in your deployment's resource requests/limits.")
  else if pyContains unhealthyReason "ImagePullBackOff" then
    some ("Kubernetes failed to pull the container image.",
      "Check that the image name and tag are correct and that the cluster has credentials to pull from the registry.")
  else if pyContains podEvents "FailedScheduling" then
    some ("The pod could not be scheduled onto a node.",
      "This is often due to insufficient resources (CPU, memory) or node taints. Check `kubectl describe node`.")
  else if pyContains podEvents "FailedMount" then
    some ("The pod failed to mount a required volume.",
      "Verify that the volume exists in the namespace and is correctly named in the pod definition.")
  else if pyContains (pyLower containerLogs) "connection refused" then
    some ("The application is crashing because it cannot connect to another service.",
      "Verify that the upstream service (e.g., database, API) is running and accessible.")
  else if pyContains (pyLower containerLogs) "file not found"
      || pyContains (pyLower containerLogs) "no such file or directory" then
    some ("The application is crashing because a required file is missing.",
      "Check that all necessary configuration files or scripts are correctly mounted.")
  else if pyContains (pyLower containerLogs) "permission denied" then
    some ("The application is crashing due to a file system permission error.",
      "Check the user/group the container is running as and ensure it has correct permissions.")
  else none

/-- The response parsing inside `_get_llm_diagnosis` (src/agent.py lines
198-203): remove the `"Diagnosis: "` marker, normalise the recommendation
marker onto its own line, split on it, strip both parts; a missing second
part falls back to the sentinel. -/
def parseLlmResponse (text : String) : String × String :=
  match pySplit
      (pyReplace (pyReplace text "Diagnosis: " "") "Recommendation: " "\nRecommendation: ")
      "\nRecommendation:" with
  | [] => ("", "No specific recommendation provided.")
  | [d] => (pyStrip d, "No specific recommendation provided.")
  | d :: r :: _ => (pyStrip d, pyStrip r)

/-- `KubernetesDiagnosticAgent._get_llm_diagnosis` (src/agent.py lines
196-205): the external `generate_content` call either yields response text
or raises, and the surrounding `try/except Exception` turns any raise into
the degraded pair, so the method itself never raises. -/
def getLlmDiagnosis (llmResponse : Except String String) : String × String :=
  match llmResponse with
  | Except.ok text => parseLlmResponse text
  | Except.error e =>
    ("LLM analysis failed: " ++ e, "Could not get a recommendation from the LLM.")

/-- `KubernetesDiagnosticAgent._generate_diagnosis` (src/agent.py lines
235-241), with the provenance of the returned pair made explicit. Python's
`if diagnosis:` is true exactly for a non-`None`, non-empty diagnosis
string; `llm` is the pair the LLM fallback would return. -/
def generateDiagnosis (llm : String × String)
    (unhealthyReason podEvents containerLogs : String) : DiagnosisResult :=
  match getRuleBasedDiagnosis unhealthyReason podEvents containerLogs with
  | some (d, r) =>
    if d = "" then ⟨llm.1, llm.2, Provenance.generativeFallback⟩
    else ⟨d, r, Provenance.ruleBased⟩
  | none => ⟨llm.1, llm.2, Provenance.generativeFallback⟩

/-! ## Orchestration driver -/

/-- One kubeconfig context: its name and the cluster it points at. -/
structure KubeContext where
  name : String
  cluster : String
  deriving DecidableEq, Repr

/-- A kubeconfig file as `_connect_and_validate` reads it: its active
context, when one is set. -/
structure KubeConfigFile where
  activeContext : Option KubeContext
  deriving DecidableEq, Repr

/-- The cluster-config environment: the kubeconfig file at
`~/.kube_tool/<clusterName>`, when such a file exists. -/
structure ClusterEnv where
  configAt : String → Option KubeConfigFile

/-- `KubernetesDiagnosticAgent._connect_and_validate` (src/agent.py lines
31-48): a missing kubeconfig file or a missing active context raises
`ConnectionError`; otherwise the connection is established. The active
context's cluster name is read and printed but never compared with the
configured `clusterName`, so a successful result carries it unchecked. -/
def connectAndValidate (env : ClusterEnv) (clusterName : String) : Except String String :=
  match env.configAt clusterName with
  | none => Except.error ("Kubeconfig file not found at ~/.kube_tool/" ++ clusterName)
  | some cfg =>
    match cfg.activeContext with
    | none => Except.error "No active context found in kubeconfig."
    | some ctx => Except.ok ctx.cluster

/-- The observable outcome of one `run`: the process exit code and whether
pod discovery was attempted. -/
structure RunResult where
  exitCode : Nat
  discoveryAttempted : Bool
  deriving DecidableEq, Repr

/-- `KubernetesDiagnosticAgent.run` (src/agent.py lines 88-97): a
`ConnectionError` from `_connect_and_validate` is printed and the process
exits 1 before `discover_pods` runs; otherwise discovery proceeds (a
discovery failure is caught inside `discover_pods` and treated as zero
results, so the run completes with exit code 0). -/
def runAgent (env : ClusterEnv) (clusterName : String) : RunResult :=
  match connectAndValidate env clusterName with
  | Except.error _ => ⟨1, false⟩
  | Except.ok _ => ⟨0, true⟩

/-! ## Module import and entry point -/

/-- What importing `agent` does before anything else can run. -/
inductive ImportResult where
  | exitWith (stderrLine : String) (code : Nat)
  | ready
  deriving DecidableEq, Repr

/-- The module-level key check of src/agent.py lines 9-14, keyed on the
resolved `GEMINI_API_KEY` value after `load_dotenv` (`none` when the
variable is unset and no .env file supplies it). Python's
`if not GEMINI_API_KEY` is true for a missing or empty value; it prints to
stderr and exits 1 at import time. -/
def moduleInit (geminiApiKey : Option String) : ImportResult :=
  match geminiApiKey with
  | none => ImportResult.exitWith "Error: GEMINI_API_KEY not found in .env file." 1
  | some k =>
    if k = "" then ImportResult.exitWith "Error: GEMINI_API_KEY not found in .env file." 1
    else ImportResult.ready

/-- The observable trace of one process run of src/main.py. -/
structure MainTrace where
  exitCode : Nat
  stderrLine : Option String
  argsParsed : Bool
  connectionAttempted : Bool
  discoveryAttempted : Bool
  deriving DecidableEq, Repr

/-- src/main.py: `from agent import KubernetesDiagnosticAgent` runs the
module-level key check before `argparse` parses any argument; only then is
the agent constructed and `run`. -/
def mainEntry (geminiApiKey : Option String) (env : ClusterEnv)
    (clusterName : String) : MainTrace :=
  match moduleInit geminiApiKey with
  | ImportResult.exitWith msg code => ⟨code, some msg, false, false, false⟩
  | ImportResult.ready =>
    match connectAndValidate env clusterName with
    | Except.error e => ⟨1, some ("Error: " ++ e), true, true, false⟩
    | Except.ok _ => ⟨0, none, true, true, true⟩

/-! ## Lemmas about the string primitives -/

theorem leadsWith_trans {p q l : List Char} (h1 : leadsWith p q = true)
    (h2 : leadsWith q l = true) : leadsWith p l = true := by
  induction p generalizing q l with
  | nil => rfl
  | cons a as ih =>
    cases q with
    | nil => simp [leadsWith] at h1
    | cons b bs =>
      cases l with
      | nil => simp [leadsWith] at h2
      | cons c cs =>
        simp [leadsWith] at h1 h2 ⊢
        exact ⟨h1.1.trans h2.1, ih h1.2 h2.2⟩

theorem containsL_nil_pat (l : List Char) : containsL [] l = true := by
  cases l <;> simp [containsL, leadsWith]

theorem containsL_of_leadsWith {p l : List Char} (h : leadsWith p l = true) :
    containsL p l = true := by
  cases l with
  | nil => exact h
  | cons c cs => simp [containsL]; exact Or.inl h

theorem containsL_of_leadsWith_sub {p q l : List Char} (hq : leadsWith q l = true)
    (hp : containsL p q = true) : containsL p l = true := by
  induction q generalizing l with
  | nil =>
    cases p with
    | nil => exact containsL_nil_pat l
    | cons a as => simp [containsL, leadsWith] at hp
  | cons b bs ih =>
    cases l with
    | nil => simp [leadsWith] at hq
    | cons c cs =>
      simp [containsL] at hp
      cases hp with
      | inl hp => exact containsL_of_leadsWith (leadsWith_trans hp hq)
      | inr hp =>
        simp [leadsWith] at hq
        have := ih hq.2 hp
        simp [containsL]
        exact Or.inr this

theorem containsL_trans {p q l : List Char} (hpq : containsL p q = true)
    (hql : containsL q l = true) : containsL p l = true := by
  induction l with
  | nil =>
    cases q with
    | nil => exact hpq
    | cons b bs => simp [containsL, leadsWith] at hql
  | cons c cs ih =>
    simp [containsL] at hql
    cases hql with
    | inl h => exact containsL_of_leadsWith_sub h hpq
    | inr h =>
      have := ih h
      simp [containsL]
      exact Or.inr this

theorem containsL_false_of_sub {p q l : List Char} (hpq : containsL p q = true)
    (h : containsL p l = false) : containsL q l = false := by
  cases hx : containsL q l with
  | false => rfl
  | true => exact absurd (containsL_trans hpq hx) (by simp [h])

theorem replaceFuel_id (pat rep : List Char) (fuel : Nat) :
    ∀ l : List Char, containsL pat l = false → replaceFuel pat rep fuel l = l := by
  induction fuel with
  | zero => intro l _; cases l <;> rfl
  | succ n ih =>
    intro l h
    cases l with
    | nil => rfl
    | cons c rest =>
      simp [containsL] at h
      simp [replaceFuel, h.1, ih rest h.2]

theorem splitFuel_id (sep : List Char) (fuel : Nat) :
    ∀ l : List Char, containsL sep l = false → splitFuel sep fuel l = [l] := by
  induction fuel with
  | zero => intro l _; cases l <;> rfl
  | succ n ih =>
    intro l h
    cases l with
    | nil => rfl
    | cons c rest =>
      simp [containsL] at h
      simp [splitFuel, h.1, ih rest h.2]

theorem pyReplace_id (s pat rep : String) (h : containsL pat.data s.data = false) :
    pyReplace s pat rep = s := by
  unfold pyReplace
  rw [replaceFuel_id pat.data rep.data s.data.length s.data h]

theorem pySplit_id (s sep : String) (h : containsL sep.data s.data = false) :
    pySplit s sep = [s] := by
  unfold pySplit
  rw [splitFuel_id sep.data s.data.length s.data h]
  rfl

theorem leadsWith_append {p l : List Char} (l2 : List Char)
    (h : leadsWith p l = true) : leadsWith p (l ++ l2) = true := by
  induction p generalizing l with
  | nil => rfl
  | cons a as ih =>
    cases l with
    | nil => simp [leadsWith] at h
    | cons b bs =>
      simp [leadsWith] at h ⊢
      exact ⟨h.1, ih h.2⟩

theorem containsL_append_left {p l1 : List Char} (l2 : List Char)
    (h : containsL p l1 = true) : containsL p (l1 ++ l2) = true := by
  induction l1 with
  | nil =>
    cases p with
    | nil => exact containsL_nil_pat l2
    | cons a as => simp [containsL, leadsWith] at h
  | cons c rest ih =>
    simp [containsL] at h
    cases h with
    | inl h =>
      have := leadsWith_append l2 h
      exact containsL_of_leadsWith (by simpa using this)
    | inr h =>
      simp [containsL]
      exact Or.inr (ih h)

/-- The rule table only ever answers with its fixed, non-empty diagnosis
strings, so Python's truthiness test `if diagnosis:` cannot reject a match. -/
theorem ruleDiagnosis_ne_empty (r e l d rec : String)
    (h : getRuleBasedDiagnosis r e l = some (d, rec)) : d ≠ "" := by
  unfold getRuleBasedDiagnosis at h
  split_ifs at h <;> simp_all <;>
    (obtain ⟨h1, h2⟩ := h; subst h1; decide)

/-! ## Claim theorems -/

/-- C1, counterexample: with the configured cluster identity `"staging-eu"`
and a kubeconfig whose active context points at the cluster `"prod-us"`, the
run does not exit non-zero and pod discovery is attempted: the configured
identity is never compared with the active context's cluster, so a mismatch
is not fatal, contrary to the claim. -/
theorem cluster_mismatch_not_fatal_cex :
    runAgent ⟨fun n => if n = "staging-eu"
        then some ⟨some ⟨"staging-eu-admin", "prod-us"⟩⟩ else none⟩ "staging-eu"
      = ⟨0, true⟩
    ∧ ("prod-us" : String) ≠ "staging-eu" := by
  constructor
  · rfl
  · decide

/-- C1, amended: the Disconnected-to-Connected transition fails fatally
(exit code 1, no discovery) exactly when the kubeconfig file for the
configured cluster identity is missing or that file has no active context;
when the file exists with an active context the run proceeds to discovery
with exit code 0 regardless of which cluster the context names, so a
cluster-identity mismatch alone is never fatal. -/
theorem connect_fatal_exactly_on_missing_config_or_context
    (env : ClusterEnv) (clusterName : String) :
    (env.configAt clusterName = none → runAgent env clusterName = ⟨1, false⟩)
    ∧ (∀ cfg, env.configAt clusterName = some cfg → cfg.activeContext = none →
        runAgent env clusterName = ⟨1, false⟩)
    ∧ (∀ cfg ctx, env.configAt clusterName = some cfg → cfg.activeContext = some ctx →
        runAgent env clusterName = ⟨0, true⟩) := by
  refine ⟨?_, ?_, ?_⟩
  · intro h
    simp [runAgent, connectAndValidate, h]
  · intro cfg h1 h2
    simp [runAgent, connectAndValidate, h1, h2]
  · intro cfg ctx h1 h2
    simp [runAgent, connectAndValidate, h1, h2]

/-- C7: every failure of the external text-generation call is caught and
becomes a degraded result whose diagnosis is `"LLM analysis failed: "`
followed by the error (so it contains `"analysis failed"`), with the
sentinel recommendation; `getLlmDiagnosis` is a total function into plain
pairs, so no exception passes the classifier boundary. -/
theorem llm_failure_degraded_result (e : String) :
    getLlmDiagnosis (Except.error e)
      = ("LLM analysis failed: " ++ e, "Could not get a recommendation from the LLM.")
    ∧ pyContains ("LLM analysis failed: " ++ e) "analysis failed" = true := by
  constructor
  · rfl
  · show containsL ("analysis failed".data) (("LLM analysis failed: " ++ e).data) = true
    have hd : ("LLM analysis failed: " ++ e).data
        = ("LLM analysis failed: ".data) ++ e.data := by
      rfl
    rw [hd]
    exact containsL_append_left e.data (by decide)

/-- C9: whenever the unhealthy reason contains `"OOMKilled"`, the rule engine
answers with the exceeded-memory-limit pair, whatever the events and logs
texts are: the OOMKilled predicate is the first rule of the chain. -/
theorem oomkilled_rule_first (r e l : String)
    (h : pyContains r "OOMKilled" = true) :
    getRuleBasedDiagnosis r e l
      = some ("The container was terminated because it exceeded its memory limit.",
        "Increase the memory limit for this pod in your deployment's resource requests/limits.") := by
  unfold getRuleBasedDiagnosis
  simp [h]

/-- Witness for C9 at a concrete input whose logs even contain
`"connection refused"`: the OOMKilled rule still answers. -/
theorem oomkilled_rule_first_witness :
    getRuleBasedDiagnosis "OOMKilled" "some events" "connection refused"
      = some ("The container was terminated because it exceeded its memory limit.",
        "Increase the memory limit for this pod in your deployment's resource requests/limits.") :=
  oomkilled_rule_first "OOMKilled" "some events" "connection refused" (by decide)

/-- C10: with `GEMINI_API_KEY` unresolved (unset and not supplied by a .env
file), the process prints the key error to stderr and exits 1 at
module-import time: no CLI argument is parsed, no connection attempted, no
discovery attempted, whatever cluster environment the run would have seen. -/
theorem missing_api_key_exits_at_import (env : ClusterEnv) (clusterName : String) :
    mainEntry none env clusterName
      = ⟨1, some "Error: GEMINI_API_KEY not found in .env file.", false, false, false⟩ := rfl

/-- C2, counterexample: the unhealthy reason the classifier emits for a
crash-looping container contains `"CrashLoopBackOff"` and matches no earlier
predicate (empty events and logs), yet the rule engine returns the no-match
signal, not the claimed (unrecognized application crash, inspect logs) pair:
the implemented table has no CrashLoopBackOff rule. -/
theorem crashloop_reason_no_rule_cex :
    pyContains "Container 'app' is in a waiting state with reason: CrashLoopBackOff"
        "CrashLoopBackOff" = true
    ∧ getRuleBasedDiagnosis
        "Container 'app' is in a waiting state with reason: CrashLoopBackOff" "" ""
      = none := by
  constructor
  · decide
  · decide

/-- C2, amended: under the escalating configuration the rule engine returns
the no-match signal exactly when none of the seven implemented predicates
matches; the table has no CrashLoopBackOff row, so an input whose reason
contains `"CrashLoopBackOff"` and matches no other predicate yields no-match
(escalating to the generative fallback), not a canned pair. -/
theorem rule_engine_no_match_iff_no_predicate (r e l : String) :
    getRuleBasedDiagnosis r e l = none ↔
      (pyContains r "OOMKilled" = false
       ∧ pyContains r "ImagePullBackOff" = false
       ∧ pyContains e "FailedScheduling" = false
       ∧ pyContains e "FailedMount" = false
       ∧ pyContains (pyLower l) "connection refused" = false
       ∧ pyContains (pyLower l) "file not found" = false
       ∧ pyContains (pyLower l) "no such file or directory" = false
       ∧ pyContains (pyLower l) "permission denied" = false) := by
  unfold getRuleBasedDiagnosis
  split_ifs with h1 h2 h3 h4 h5 h6 h7 <;> simp_all
  intro ha hb
  rcases h6 with h6 | h6 <;> simp_all

/-- C3 (code bug): an unhealthy pod whose container-status list is absent
(`None`) makes `_get_pod_diagnostics` raise a `TypeError` while iterating
`None`, aborting the diagnosis instead of degrading — even though the events
fetch is untouched. The last two conjuncts show the graceful parts the claim
also states: an event-fetch failure is captured inline and log collection
still proceeds for a pod that does have container statuses. -/
theorem pod_diagnostics_none_statuses_raises :
    (isPodHealthy ⟨"web-0", "default", ⟨"Running", none⟩⟩).1 = false
    ∧ getPodDiagnostics
        ⟨fun _ _ => Except.ok [], fun _ => Except.ok ""⟩
        ⟨"web-0", "default", ⟨"Running", none⟩⟩
      = Except.error "TypeError: 'NoneType' object is not iterable"
    ∧ getPodDiagnostics
        ⟨fun _ _ => Except.error "503 Service Unavailable",
         fun _ => Except.ok "boom"⟩
        ⟨"web-1", "default", ⟨"Running", some [⟨"app", false, none, true⟩]⟩⟩
      = Except.ok ⟨"Could not retrieve events: 503 Service Unavailable",
          "--- Logs for container 'app' ---\nboom"⟩
    ∧ getPodDiagnostics
        ⟨fun _ _ => Except.ok [], fun _ => Except.error "404 Not Found"⟩
        ⟨"web-2", "default", ⟨"Running", some [⟨"app", false, none, true⟩]⟩⟩
      = Except.ok ⟨"No recent events found.",
          "Could not retrieve logs for previous instance of container 'app'."⟩ := by
  refine ⟨rfl, rfl, rfl, rfl⟩

/-- C5: for every unhealthy instance the diagnosis step yields exactly one
result; its provenance is rule-based exactly when some rule matched, and the
generative fallback is consulted exactly on the rule engine's no-match
signal. -/
theorem diagnosis_provenance_rule_vs_fallback (llm : String × String) (r e l : String) :
    (∀ d rec, getRuleBasedDiagnosis r e l = some (d, rec) →
      generateDiagnosis llm r e l = ⟨d, rec, Provenance.ruleBased⟩)
    ∧ (getRuleBasedDiagnosis r e l = none →
      generateDiagnosis llm r e l = ⟨llm.1, llm.2, Provenance.generativeFallback⟩)
    ∧ ((generateDiagnosis llm r e l).provenance = Provenance.generativeFallback ↔
      getRuleBasedDiagnosis r e l = none) := by
  refine ⟨?_, ?_, ?_⟩
  · intro d rec h
    have hd := ruleDiagnosis_ne_empty r e l d rec h
    simp [generateDiagnosis, h, hd]
  · intro h
    simp [generateDiagnosis, h]
  · cases h : getRuleBasedDiagnosis r e l with
    | none => simp [generateDiagnosis, h]
    | some p =>
      have hd := ruleDiagnosis_ne_empty r e l p.1 p.2 (by simpa using h)
      simp [generateDiagnosis, h, hd]

/-- C4, counterexample: a pod in phase `"Running"` whose single container is
ready but carries the wait-reason `"Error"` is classified unhealthy (rule 4
precedes the readiness rules), so "phase Running and all containers ready"
alone does not imply healthy. -/
theorem ready_with_critical_wait_reason_cex :
    (Pod.mk "web-0" "default"
        (PodStatus.mk "Running"
          (some [ContainerStatus.mk "app" true (some "Error") false]))).status.phase
      = "Running"
    ∧ List.all [ContainerStatus.mk "app" true (some "Error") false]
        (fun cs => cs.ready) = true
    ∧ (isPodHealthy (Pod.mk "web-0" "default"
        (PodStatus.mk "Running"
          (some [ContainerStatus.mk "app" true (some "Error") false])))).1
      = false := by
  refine ⟨rfl, rfl, rfl⟩

/-- C4, amended: the Health Classifier is the deterministic total function
applying, in first-match order: (1) phase Failed or Unknown, reason naming
the phase; (2) phase Pending; (3) absent or empty container-status list;
(4) the first container in list order with wait-reason CrashLoopBackOff,
ImagePullBackOff or Error, naming that container and reason; (5) some
container not ready; (6) otherwise healthy — so an instance with phase
Running, all containers ready, and no container in one of those waiting
states is classified healthy. -/
theorem is_pod_healthy_rule_order (pod : Pod) :
    ((pod.status.phase = "Failed" ∨ pod.status.phase = "Unknown") →
      isPodHealthy pod = (false, "Pod is in a non-running phase: " ++ pod.status.phase))
    ∧ (¬(pod.status.phase = "Failed" ∨ pod.status.phase = "Unknown") →
        pod.status.phase = "Pending" →
        isPodHealthy pod = (false, "Pod is stuck in Pending phase."))
    ∧ (¬(pod.status.phase = "Failed" ∨ pod.status.phase = "Unknown") →
        pod.status.phase ≠ "Pending" →
        (pod.status.containerStatuses = none ∨ pod.status.containerStatuses = some []) →
        isPodHealthy pod
          = (false, "Pod has no container statuses, may still be initializing."))
    ∧ (∀ css cs, ¬(pod.status.phase = "Failed" ∨ pod.status.phase = "Unknown") →
        pod.status.phase ≠ "Pending" →
        pod.status.containerStatuses = some css →
        List.find? hasCriticalWaitReason css = some cs →
        isPodHealthy pod = (false, "Container '" ++ cs.name
          ++ "' is in a waiting state with reason: " ++ Option.getD cs.waitingReason ""))
    ∧ (∀ css, ¬(pod.status.phase = "Failed" ∨ pod.status.phase = "Unknown") →
        pod.status.phase ≠ "Pending" →
        pod.status.containerStatuses = some css → css ≠ [] →
        List.find? hasCriticalWaitReason css = none →
        List.all css (fun cs => cs.ready) = false →
        isPodHealthy pod = (false, "Not all containers in the pod are ready."))
    ∧ (∀ css, ¬(pod.status.phase = "Failed" ∨ pod.status.phase = "Unknown") →
        pod.status.phase ≠ "Pending" →
        pod.status.containerStatuses = some css → css ≠ [] →
        List.find? hasCriticalWaitReason css = none →
        List.all css (fun cs => cs.ready) = true →
        isPodHealthy pod = (true, "Healthy")) := by
  refine ⟨?_, ?_, ?_, ?_, ?_, ?_⟩
  · intro h
    unfold isPodHealthy
    rw [if_pos h]
  · intro h1 h2
    unfold isPodHealthy
    rw [if_neg h1, if_pos h2]
  · intro h1 h2 h3
    unfold isPodHealthy
    rw [if_neg h1, if_neg h2]
    rcases h3 with h3 | h3 <;> rw [h3]
  · intro css cs h1 h2 h3 h4
    unfold isPodHealthy
    rw [if_neg h1, if_neg h2, h3]
    cases css with
    | nil => simp [List.find?] at h4
    | cons c0 rest => simp [h4]
  · intro css h1 h2 h3 hne h4 h5
    unfold isPodHealthy
    rw [if_neg h1, if_neg h2, h3]
    cases css with
    | nil => exact absurd rfl hne
    | cons c0 rest => simp [h4, h5]
  · intro css h1 h2 h3 hne h4 h5
    unfold isPodHealthy
    rw [if_neg h1, if_neg h2, h3]
    cases css with
    | nil => exact absurd rfl hne
    | cons c0 rest => simp [h4, h5]

/-- C6: the response parser maps `"Diagnosis: X\nRecommendation: Y"` to the
pair `("X", "Y")`; and for every response text in which no recommendation
marker remains after the diagnosis-marker removal, it returns the parsed
(stripped) diagnosis together with the `"No specific recommendation
provided."` sentinel. -/
theorem llm_response_parsing :
    parseLlmResponse "Diagnosis: X\nRecommendation: Y" = ("X", "Y")
    ∧ ∀ text : String,
        containsL ("Recommendation".data) (pyReplace text "Diagnosis: " "").data = false →
        parseLlmResponse text
          = (pyStrip (pyReplace text "Diagnosis: " ""),
             "No specific recommendation provided.") := by
  constructor
  · decide
  · intro text h
    have h2 : containsL ("Recommendation: ".data)
        (pyReplace text "Diagnosis: " "").data = false :=
      containsL_false_of_sub (by decide) h
    have h3 : containsL ("\nRecommendation:".data)
        (pyReplace text "Diagnosis: " "").data = false :=
      containsL_false_of_sub (by decide) h
    have e1 : pyReplace (pyReplace text "Diagnosis: " "")
        "Recommendation: " "\nRecommendation: " = pyReplace text "Diagnosis: " "" :=
      pyReplace_id _ _ _ h2
    have e2 : pySplit (pyReplace text "Diagnosis: " "") "\nRecommendation:"
        = [pyReplace text "Diagnosis: " ""] :=
      pySplit_id _ _ h3
    unfold parseLlmResponse
    rw [e1, e2]

/-- Witness for C6's universally quantified part, at a marker-free response
text: the recommendation defaults to the sentinel. -/
theorem llm_response_parsing_witness :
    parseLlmResponse "The pod ran out of memory."
      = ("The pod ran out of memory.", "No specific recommendation provided.") := by
  have h := llm_response_parsing.2 "The pod ran out of memory." (by decide)
  exact h.trans (by decide)

/-- C8, counterexample: for a pod with one terminated container, the issued
previous-log request carries `tailLines = none` — no line-count bound is
passed (the `tail_lines` argument is absent from the call), contrary to the
claim that the fetch is bounded. -/
theorem log_request_unbounded_cex :
    podLogRequests (Pod.mk "web-0" "default"
        (PodStatus.mk "Running"
          (some [ContainerStatus.mk "app" false (some "CrashLoopBackOff") true])))
      = [LogRequest.mk "web-0" "default" "app" true none]
    ∧ (LogRequest.mk "web-0" "default" "app" true none).tailLines = none := by
  refine ⟨rfl, rfl⟩

/-- C8, amended: for every container whose last-termination state is set,
the collector requests that container's previous-run log (`previous=True`),
but with no line-count bound: every issued request has `tailLines = none`,
so the whole previous log is fetched. -/
theorem log_requests_previous_and_unbounded (pod : Pod)
    (css : List ContainerStatus)
    (hcss : pod.status.containerStatuses = some css) :
    (∀ cs ∈ css, cs.lastTerminated = true →
      (LogRequest.mk pod.name pod.ns cs.name true none) ∈ podLogRequests pod)
    ∧ (∀ req ∈ podLogRequests pod, req.previous = true ∧ req.tailLines = none) := by
  constructor
  · intro cs hmem hterm
    simp [podLogRequests, hcss, List.mem_filterMap]
    exact ⟨cs, hmem, by simp [hterm]⟩
  · intro req hreq
    simp [podLogRequests, hcss, List.mem_filterMap] at hreq
    obtain ⟨cs, hmem, ht, hres⟩ := hreq
    rw [← hres]
    exact ⟨rfl, rfl⟩

/-- Witness for C8's amended theorem at a concrete pod with one terminated
container: the issued request has `previous = true` and no line bound. -/
theorem log_requests_witness :
    ((LogRequest.mk "web-0" "default" "app" true none) ∈ podLogRequests
        (Pod.mk "web-0" "default"
          (PodStatus.mk "Running"
            (some [ContainerStatus.mk "app" false (some "CrashLoopBackOff") true]))))
    ∧ (LogRequest.mk "web-0" "default" "app" true none).previous = true
    ∧ (LogRequest.mk "web-0" "default" "app" true none).tailLines = none := by
  have h := log_requests_previous_and_unbounded
    (Pod.mk "web-0" "default"
      (PodStatus.mk "Running"
        (some [ContainerStatus.mk "app" false (some "CrashLoopBackOff") true])))
    [ContainerStatus.mk "app" false (some "CrashLoopBackOff") true] rfl
  have hm := h.1 (ContainerStatus.mk "app" false (some "CrashLoopBackOff") true)
    (by simp) rfl
  exact ⟨hm, (h.2 _ hm).1, (h.2 _ hm).2⟩
